import Mathlib

/-!
# Verification of the unicorn-lua engine lifecycle core (`src/engine.c`)

Shallow embedding of `src/engine.c` of the unicorn-lua binding.  Native
pointers (`uc_engine *`, `uc_context *`, light userdata keys) are modelled as
`Nat` identities wrapped in `Option` where the C code compares against `NULL`
(`none` models the null pointer).  The Lua registry tables used by the code
(the weak engine-pointer map and the per-engine hook table) are modelled as
association lists; Lua errors (`luaL_error`, `luaL_argerror`,
`ul_crash_on_error`) are modelled with `Except`, since a raised Lua error
aborts the current C function via `longjmp`.

External collaborators (`uc_close`, `uc_query`, `uc_context_alloc`,
`uc_context_save`) are parameters of the model: each is a function supplied by
the caller of the model, returning the status code (and any out-parameter
value) that the native library would return.
-/

/-- `UC_ERR_OK`, the unicorn success status. -/
def UC_ERR_OK : Int := 0

/-- `LUA_NOREF`, the sentinel for "no registry reference" used by `luaL_ref`
and stored into `hook_table_ref` during close. -/
def LUA_NOREF : Int := -2

/-- The errors a function of this layer can raise.  Each constructor is one
`luaL_error` / `luaL_argerror` / `ul_crash_on_error` site of the C code, and
carries the data the C format string interpolates. -/
inductive UCError where
  /-- `luaL_error(L, "Attempted to use closed engine.")` in `ul_toengine`. -/
  | closedEngine : UCError
  /-- `luaL_error(L, "No engine object is registered for pointer %p.", engine)`
  in `ul_get_engine_object`; carries the offending handle. -/
  | noEngineObject (ptr : Nat) : UCError
  /-- A `luaL_check*` argument-type failure at the given 1-based stack index
  (e.g. `luaL_checkinteger` on a non-number, `luaL_checkudata` on a value
  without the expected metatable). -/
  | badArgument (index : Nat) : UCError
  /-- `ul_crash_on_error(L, error)`: the single error-reporting path for a
  non-success native status; carries the status code. -/
  | native (status : Int) : UCError
deriving DecidableEq, Repr

/-- The C struct `UCLuaEngine`: the wrapper object.  `engine` is the
`uc_engine *` field (`none` models `NULL`, the CLOSED state);
`hook_table_ref` is the Lua-registry reference to the hook table. -/
structure UCLuaEngine where
  engine : Option Nat
  hook_table_ref : Int
deriving DecidableEq, Repr

/-- A Lua association table with `Nat` keys and values, as a list of entries
in the order `lua_next` traverses them. -/
def LuaTable := List (Nat × Nat)
deriving DecidableEq, Repr

/-- `lua_gettable`: look a key up in a table. -/
def luaGettable (t : LuaTable) (k : Nat) : Option Nat :=
  List.lookup k t

/-- `lua_settable` with a non-nil value: overwrite the existing entry for the
key if present, otherwise add a fresh entry. -/
def luaSettablePut (t : LuaTable) (k v : Nat) : LuaTable :=
  match t with
  | [] => [(k, v)]
  | (k', v') :: rest =>
      if k' = k then (k, v) :: rest else (k', v') :: luaSettablePut rest k v

/-- `lua_settable` with `nil`: remove every entry for the key. -/
def luaSettableNil (t : LuaTable) (k : Nat) : LuaTable :=
  List.filter (fun p => p.1 ≠ k) t

/-- The mutable state `ul_free_engine_object` touches: one wrapper object,
the registry slot holding its hook table, and the process-wide weak
engine-pointer map (`kEnginePointerMapName`).  The hook-table slot holds the
list of hook keys in the order `lua_next` enumerates them; `none` models the
slot after `luaL_unref` released it. -/
structure CState where
  obj : UCLuaEngine
  hookTable : Option (List Nat)
  ptrMap : LuaTable
deriving DecidableEq, Repr

/-- The observable native calls made during one close: the hook keys passed
to `ul_hook_del_by_indexes` in call order, and the engine handles passed to
`uc_close` in call order. -/
structure CloseTrace where
  hookDeletes : List Nat
  ucCloseCalls : List Nat
deriving DecidableEq, Repr

/-- `ul_free_engine_object` (`src/engine.c:83-129`).  Returns the state at
the moment control leaves the C function (by normal return or by the raise
inside `ul_crash_on_error`), the outcome, and the trace of native calls.

Line-by-line: if `engine_object->engine == NULL` return at once; otherwise
fetch the hook table, drain it with `lua_next` calling
`ul_hook_del_by_indexes` on every key, `luaL_unref` the table and set
`hook_table_ref = LUA_NOREF`, call `uc_close` and raise through
`ul_crash_on_error` on a non-success status; on success remove the
engine-pointer-map entry for the handle and finally set `engine = NULL`. -/
def ul_free_engine_object (ucClose : Nat → Int) (st : CState) :
    CState × Except UCError Unit × CloseTrace :=
  match st.obj.engine with
  | none => (st, Except.ok (), ⟨[], []⟩)
  | some h =>
      let hooks := st.hookTable.getD []
      let st1 : CState :=
        { st with hookTable := none,
                  obj := { st.obj with hook_table_ref := LUA_NOREF } }
      let status := ucClose h
      if status ≠ UC_ERR_OK then
        (st1, Except.error (UCError.native status), ⟨hooks, [h]⟩)
      else
        let st2 : CState :=
          { st1 with ptrMap := luaSettableNil st1.ptrMap h,
                     obj := { st1.obj with engine := none } }
        (st2, Except.ok (), ⟨hooks, [h]⟩)

/-- The host-visible C functions referenced by the method tables. -/
inductive CFun where
  | ul_close | ul_context_restore | ul_context_save | ul_emu_start
  | ul_emu_stop | ul_errno | ul_hook_add | ul_hook_del | ul_mem_map
  | ul_mem_protect | ul_mem_read | ul_mem_regions | ul_mem_unmap
  | ul_mem_write | ul_query | ul_reg_read | ul_reg_read_batch
  | ul_reg_write | ul_reg_write_batch
deriving DecidableEq, Repr

/-- `kEngineMetamethods`: the metatable entries installed on every engine
object.  `__gc` — the host finalizer — is bound to `ul_close`. -/
def kEngineMetamethods : List (String × CFun) :=
  [("__gc", CFun.ul_close)]

/-- `kEngineInstanceMethods`: the `__index` method table of engine objects. -/
def kEngineInstanceMethods : List (String × CFun) :=
  [("close", CFun.ul_close),
   ("context_restore", CFun.ul_context_restore),
   ("context_save", CFun.ul_context_save),
   ("emu_start", CFun.ul_emu_start),
   ("emu_stop", CFun.ul_emu_stop),
   ("errno", CFun.ul_errno),
   ("hook_add", CFun.ul_hook_add),
   ("hook_del", CFun.ul_hook_del),
   ("mem_map", CFun.ul_mem_map),
   ("mem_protect", CFun.ul_mem_protect),
   ("mem_read", CFun.ul_mem_read),
   ("mem_regions", CFun.ul_mem_regions),
   ("mem_unmap", CFun.ul_mem_unmap),
   ("mem_write", CFun.ul_mem_write),
   ("query", CFun.ul_query),
   ("reg_read", CFun.ul_reg_read),
   ("reg_read_batch", CFun.ul_reg_read_batch),
   ("reg_write", CFun.ul_reg_write),
   ("reg_write_batch", CFun.ul_reg_write_batch)]

/-- Iterate `ul_free_engine_object` `n` times from a state (each iteration is
one call of the Lua-facing `ul_close`, whether a user call or the `__gc`
finalizer), accumulating every handle passed to `uc_close`. -/
def closeTimes (ucClose : Nat → Int) (st : CState) : Nat → CState × List Nat
  | 0 => (st, [])
  | n + 1 =>
      let r := ul_free_engine_object ucClose st
      let rest := closeTimes ucClose r.1 n
      (rest.1, r.2.2.ucCloseCalls ++ rest.2)

/-- A native close that always succeeds. -/
def ucCloseOK : Nat → Int := fun _ => UC_ERR_OK

/-- `ul_create_engine_object` (`src/engine.c:62-80`): allocate the wrapper
userdata with `engine` set to the given native handle, insert the
handle-to-wrapper mapping into the weak engine-pointer map, and attach a
fresh empty hook table via `luaL_ref`.  `objId` is the host identity of the
newly allocated userdata; `freshRef` is the registry reference `luaL_ref`
hands out for the new hook table. -/
def ul_create_engine_object (ptrMap : LuaTable) (engine objId : Nat)
    (freshRef : Int) : CState :=
  { obj := { engine := some engine, hook_table_ref := freshRef },
    hookTable := some [],
    ptrMap := luaSettablePut ptrMap engine objId }

/-- `ul_get_engine_object` (`src/engine.c:132-145`): look the native handle
up in the weak engine-pointer map; if the result is nil, raise the not-found
usage error naming the handle.  Returns the (unchanged) map together with the
outcome — the function only reads the map and adjusts the Lua stack. -/
def ul_get_engine_object (ptrMap : LuaTable) (engine : Nat) :
    LuaTable × Except UCError Nat :=
  match luaGettable ptrMap engine with
  | none => (ptrMap, Except.error (UCError.noEngineObject engine))
  | some objId => (ptrMap, Except.ok objId)

/-- A value on the Lua stack, restricted to the shapes the modelled
functions inspect.  A context userdata carries its host identity `id`
(Lua object identity) and the `uc_context *` its block holds — `none` for a
block `lua_newuserdata` returned that no code has written yet. -/
inductive LuaValue where
  | engineObj (obj : UCLuaEngine) : LuaValue
  | contextObj (id : Nat) (contents : Option Nat) : LuaValue
  | integer (n : Int) : LuaValue
  | nil : LuaValue
deriving DecidableEq, Repr

/-- The Lua stack of a C-function call: `stack.get? 0` is argument 1. -/
abbrev LuaStack := List LuaValue

/-- `luaL_checkinteger`: the value at the 1-based index must be a number
convertible to an integer, otherwise a bad-argument error is raised.  A full
userdata (such as an engine object) is never convertible. -/
def luaL_checkinteger (stack : LuaStack) (index : Nat) : Except UCError Int :=
  match List.get? stack (index - 1) with
  | some (LuaValue.integer n) => Except.ok n
  | _ => Except.error (UCError.badArgument index)

/-- `ul_toengine` (`src/engine.c:266-274`): `luaL_checkudata` the value at
the index against the engine metatable, then raise the closed-engine usage
error if its `engine` field is `NULL`; otherwise return the non-null
handle. -/
def ul_toengine (stack : LuaStack) (index : Nat) : Except UCError Nat :=
  match List.get? stack (index - 1) with
  | some (LuaValue.engineObj obj) =>
      match obj.engine with
      | none => Except.error UCError.closedEngine
      | some h => Except.ok h
  | _ => Except.error (UCError.badArgument index)

/-- Modelled from the spec: `ul_tocontext` (declared in the headers, defined
outside `src/`) is the context analogue of `ul_toengine` — it checks that the
value at the index is a userdata carrying the context metatable
(`kContextMetatableName`) and returns that Snapshot Object. -/
def ul_tocontext (stack : LuaStack) (index : Nat) : Except UCError LuaValue :=
  match List.get? stack (index - 1) with
  | some (LuaValue.contextObj id contents) =>
      Except.ok (LuaValue.contextObj id contents)
  | _ => Except.error (UCError.badArgument index)

/-- `ul_query` (`src/engine.c:208-222`): resolve the engine at argument 1,
then read the query type with `luaL_checkinteger(L, 1)` — the index the C
source actually uses — call `uc_query`, raise on a non-success status, and
otherwise push the queried result as an integer (the single return value).
`ucQuery` maps (engine handle, query type) to the native status and the
`size_t` out-parameter. -/
def ul_query (ucQuery : Nat → Int → Int × Nat) (stack : LuaStack) :
    Except UCError Int := do
  let engine ← ul_toengine stack 1
  let query_type ← luaL_checkinteger stack 1
  let r := ucQuery engine query_type
  if r.1 ≠ UC_ERR_OK then
    Except.error (UCError.native r.1)
  else
    Except.ok (Int.ofNat r.2)

/-- `ul_context_alloc` (`src/engine.c:148-163`): resolve the engine at
argument 1, push a fresh context userdata (`lua_newuserdata(L,
sizeof(context))`, its block not yet written, host identity `freshId`), then
call `uc_context_alloc(engine, &context)` — whose out-pointer is the address
of the C *local variable* `context`, so the allocated native handle is stored
in that local and never written into the userdata block.  Raises on a
non-success status; otherwise returns the final stack (the pushed userdata on
top is the return value) together with the final value of the local
`context`.  `ucContextAlloc` maps the engine handle to the native status and
the freshly allocated `uc_context *`. -/
def ul_context_alloc (ucContextAlloc : Nat → Int × Nat) (freshId : Nat)
    (stack : LuaStack) : Except UCError (LuaStack × Nat) := do
  let engine ← ul_toengine stack 1
  let stack1 := stack ++ [LuaValue.contextObj freshId none]
  let r := ucContextAlloc engine
  if r.1 ≠ UC_ERR_OK then
    Except.error (UCError.native r.1)
  else
    Except.ok (stack1, r.2)

/-- `ul_context_save` (`src/engine.c:166-184`): resolve the engine at
argument 1; if fewer than two values are on the stack, call
`ul_context_alloc` to push a new context; fetch the context at index 2 with
`ul_tocontext`; call `uc_context_save(engine, context)` and raise on a
non-success status; `return 1` hands the caller the value on top of the
stack.  Returns that value together with the list of `(engine, context id)`
argument pairs passed to `uc_context_save`.  `ucContextSave` maps them to the
native status. -/
def ul_context_save (ucContextAlloc : Nat → Int × Nat)
    (ucContextSave : Nat → Nat → Int) (freshId : Nat) (stack : LuaStack) :
    Except UCError (LuaValue × List (Nat × Nat)) := do
  let engine ← ul_toengine stack 1
  let stack1 ←
    if stack.length < 2 then do
      let r ← ul_context_alloc ucContextAlloc freshId stack
      Except.ok r.1
    else
      Except.ok stack
  let context ← ul_tocontext stack1 2
  match context with
  | LuaValue.contextObj cid _ =>
      let status := ucContextSave engine cid
      if status ≠ UC_ERR_OK then
        Except.error (UCError.native status)
      else
        match List.getLast? stack1 with
        | some top => Except.ok (top, [(engine, cid)])
        | none => Except.error (UCError.badArgument 2)
  | _ => Except.error (UCError.badArgument 2)

/-- The identities of the context userdata already on a stack, used to state
that an object is newly created (its identity is fresh). -/
def contextIds (stack : LuaStack) : List Nat :=
  List.foldr
    (fun v acc =>
      match v with
      | LuaValue.contextObj id _ => id :: acc
      | _ => acc)
    [] stack

/-- A possible `lua_next` enumeration of a hook table built by inserting the
given keys in the given order: the Lua reference manual specifies which
entries a traversal visits (each live key exactly once) but explicitly leaves
the order unspecified, so any permutation of the inserted keys is a possible
enumeration. -/
def enumerationOfInsertions (inserted enum : List Nat) : Prop :=
  List.Perm enum inserted

instance (inserted enum : List Nat) :
    Decidable (enumerationOfInsertions inserted enum) :=
  List.decidablePerm enum inserted

/-! ## Unfolding lemmas for the close path -/

/-- Closing an already-CLOSED wrapper returns at once: same state, success,
no native calls (`src/engine.c:96-97`). -/
theorem ul_free_engine_object_closed (ucClose : Nat → Int) (st : CState)
    (hclosed : st.obj.engine = none) :
    ul_free_engine_object ucClose st = (st, Except.ok (), ⟨[], []⟩) := by
  unfold ul_free_engine_object
  rw [hclosed]

/-- Closing an OPEN wrapper when `uc_close` succeeds: the hook table is
drained and unreferenced, `uc_close` is called once on the handle, the
engine-pointer-map entry is removed, and the handle is nulled. -/
theorem ul_free_engine_object_open_ok (ucClose : Nat → Int) (st : CState)
    (h : Nat) (hopen : st.obj.engine = some h)
    (hok : ucClose h = UC_ERR_OK) :
    ul_free_engine_object ucClose st =
      ({ obj := { engine := none, hook_table_ref := LUA_NOREF },
         hookTable := none,
         ptrMap := luaSettableNil st.ptrMap h },
       Except.ok (), ⟨st.hookTable.getD [], [h]⟩) := by
  unfold ul_free_engine_object
  rw [hopen]
  simp [hok]

/-- Closing an OPEN wrapper when `uc_close` fails: the hook table has been
drained and unreferenced, `uc_close` was called once, and the raise in
`ul_crash_on_error` leaves the function with the handle still set and the
engine-pointer-map entry still present. -/
theorem ul_free_engine_object_open_fail (ucClose : Nat → Int) (st : CState)
    (h : Nat) (hopen : st.obj.engine = some h)
    (hfail : ucClose h ≠ UC_ERR_OK) :
    ul_free_engine_object ucClose st =
      ({ st with hookTable := none,
                 obj := { st.obj with hook_table_ref := LUA_NOREF } },
       Except.error (UCError.native (ucClose h)),
       ⟨st.hookTable.getD [], [h]⟩) := by
  unfold ul_free_engine_object
  rw [hopen]
  simp [hfail]

/-- Any number of closes of a CLOSED wrapper leaves the state untouched and
never calls `uc_close`. -/
theorem closeTimes_closed (ucClose : Nat → Int) (st : CState) (n : Nat)
    (hclosed : st.obj.engine = none) :
    closeTimes ucClose st n = (st, []) := by
  induction n with
  | zero => rfl
  | succ n ih =>
      simp [closeTimes, ul_free_engine_object_closed ucClose st hclosed, ih]

/-! ## Lookup lemmas for the Lua tables -/

/-- After `lua_settable` with a value, `lua_gettable` on that key finds it. -/
theorem luaGettable_settablePut (t : LuaTable) (k v : Nat) :
    luaGettable (luaSettablePut t k v) k = some v := by
  induction t with
  | nil => simp [luaSettablePut, luaGettable, List.lookup]
  | cons p rest ih =>
      rcases p with ⟨a, b⟩
      by_cases hak : a = k
      · simp [luaSettablePut, luaGettable, List.lookup, hak]
      · have hka : (k == a) = false := by
          rw [beq_eq_false_iff_ne]
          exact Ne.symm hak
        have ih' : List.lookup k (luaSettablePut rest k v) = some v := ih
        simp only [luaSettablePut, if_neg hak]
        show List.lookup k ((a, b) :: luaSettablePut rest k v) = some v
        simp [List.lookup, hka, ih']

/-- After `lua_settable` with nil, `lua_gettable` on that key yields nil. -/
theorem luaGettable_settableNil (t : LuaTable) (k : Nat) :
    luaGettable (luaSettableNil t k) k = none := by
  induction t with
  | nil => rfl
  | cons p rest ih =>
      rcases p with ⟨a, b⟩
      by_cases hak : a = k
      · have hdrop : luaSettableNil ((a, b) :: rest) k = luaSettableNil rest k := by
          simp [luaSettableNil, hak]
        rw [hdrop]
        exact ih
      · have hka : (k == a) = false := by
          rw [beq_eq_false_iff_ne]
          exact Ne.symm hak
        have hkeep :
            luaSettableNil ((a, b) :: rest) k = (a, b) :: luaSettableNil rest k := by
          simp [luaSettableNil, hak]
        have ih' : List.lookup k (luaSettableNil rest k) = none := ih
        rw [hkeep]
        show List.lookup k ((a, b) :: luaSettableNil rest k) = none
        simp [List.lookup, hka, ih']

/-! ## Claim theorems -/

/-- C1: for every wrapper, any sequence of close calls — explicit `close`
and the host `__gc` finalizer are bound to the same C function `ul_close` —
invokes `uc_close` exactly once: over any `n + 1` consecutive closes of an
OPEN wrapper the accumulated `uc_close` call list is exactly the one handle;
the first close performs the teardown, and a close of the resulting CLOSED
wrapper returns successfully with no further action. -/
theorem close_native_exactly_once
    (ucClose : Nat → Int) (st : CState) (h n : Nat)
    (hopen : st.obj.engine = some h) (hok : ucClose h = UC_ERR_OK) :
    (closeTimes ucClose st (n + 1)).2 = [h] ∧
    (ul_free_engine_object ucClose st).2.2.ucCloseCalls = [h] ∧
    ul_free_engine_object ucClose (ul_free_engine_object ucClose st).1
      = ((ul_free_engine_object ucClose st).1, Except.ok (), ⟨[], []⟩) ∧
    List.lookup ("__gc") kEngineMetamethods = some CFun.ul_close ∧
    List.lookup ("close") kEngineInstanceMethods = some CFun.ul_close := by
  have hfirst := ul_free_engine_object_open_ok ucClose st h hopen hok
  refine ⟨?_, ?_, ?_, rfl, rfl⟩
  · simp [closeTimes, hfirst, closeTimes_closed]
  · rw [hfirst]
  · rw [hfirst]
    exact ul_free_engine_object_closed ucClose _ rfl

/-- C1 witness: a concrete OPEN wrapper (handle 5, hooks 11 and 12,
registered) closed twice calls `uc_close` exactly once. -/
theorem close_native_exactly_once_witness :
    ((⟨⟨some 5, 3⟩, some [11, 12], [(5, 1)]⟩ : CState).obj.engine = some 5 ∧
      ucCloseOK 5 = UC_ERR_OK) ∧
    ((closeTimes ucCloseOK ⟨⟨some 5, 3⟩, some [11, 12], [(5, 1)]⟩ 2).2 = [5] ∧
      (ul_free_engine_object ucCloseOK
          ⟨⟨some 5, 3⟩, some [11, 12], [(5, 1)]⟩).2.2.ucCloseCalls = [5] ∧
      ul_free_engine_object ucCloseOK
          (ul_free_engine_object ucCloseOK
            ⟨⟨some 5, 3⟩, some [11, 12], [(5, 1)]⟩).1
        = ((ul_free_engine_object ucCloseOK
              ⟨⟨some 5, 3⟩, some [11, 12], [(5, 1)]⟩).1,
           Except.ok (), ⟨[], []⟩) ∧
      List.lookup ("__gc") kEngineMetamethods = some CFun.ul_close ∧
      List.lookup ("close") kEngineInstanceMethods = some CFun.ul_close) :=
  ⟨⟨rfl, rfl⟩,
   close_native_exactly_once ucCloseOK ⟨⟨some 5, 3⟩, some [11, 12], [(5, 1)]⟩
     5 1 rfl rfl⟩

/-- C2 counterexample: the hook table is a Lua table drained with
`lua_next`, whose traversal order the Lua reference manual leaves
unspecified; `[3, 2, 1]` is a possible enumeration of a table built by
inserting keys 1, 2, 3 in that order, and close then issues the hook
deletions in the order 3, 2, 1, not the insertion order 1, 2, 3. -/
theorem close_hook_order_counterexample :
    enumerationOfInsertions [1, 2, 3] [3, 2, 1] ∧
    (ul_free_engine_object (fun _ => UC_ERR_OK)
        ⟨⟨some 5, 3⟩, some [3, 2, 1], [(5, 1)]⟩).2.2.hookDeletes = [3, 2, 1] ∧
    ([3, 2, 1] : List Nat) ≠ [1, 2, 3] := by
  refine ⟨by decide, by decide, by decide⟩

/-- C2 amended: for a wrapper whose hook table was built by inserting keys
in some order, close invokes the Hook Manager's delete once per key in the
table's `lua_next` enumeration order — a permutation of the insertion order,
not necessarily the insertion order itself — each key exactly once (the
deletion list is a permutation of the inserted keys), and the hook table is
unreferenced (empty) afterward. -/
theorem close_hook_teardown_amended
    (ucClose : Nat → Int) (st : CState) (h : Nat) (inserted enum : List Nat)
    (hopen : st.obj.engine = some h) (htab : st.hookTable = some enum)
    (henum : enumerationOfInsertions inserted enum) :
    (ul_free_engine_object ucClose st).2.2.hookDeletes = enum ∧
    List.Perm (ul_free_engine_object ucClose st).2.2.hookDeletes inserted ∧
    (ul_free_engine_object ucClose st).1.hookTable = none ∧
    (ul_free_engine_object ucClose st).1.obj.hook_table_ref = LUA_NOREF := by
  have hdel : (ul_free_engine_object ucClose st).2.2.hookDeletes = enum := by
    unfold ul_free_engine_object
    rw [hopen]
    by_cases hc : ucClose h = UC_ERR_OK
    · simp [hc, htab]
    · simp [hc, htab]
  refine ⟨hdel, ?_, ?_, ?_⟩
  · rw [hdel]
    exact henum
  · unfold ul_free_engine_object
    rw [hopen]
    by_cases hc : ucClose h = UC_ERR_OK
    · simp [hc]
    · simp [hc]
  · unfold ul_free_engine_object
    rw [hopen]
    by_cases hc : ucClose h = UC_ERR_OK
    · simp [hc]
    · simp [hc]

/-- C2 amended witness: the concrete wrapper with hook table enumerated as
`[3, 2, 1]` after insertions 1, 2, 3: close deletes 3, 2, 1 — once each —
and unreferences the table. -/
theorem close_hook_teardown_amended_witness :
    ((⟨⟨some 5, 3⟩, some [3, 2, 1], [(5, 1)]⟩ : CState).obj.engine = some 5 ∧
      (⟨⟨some 5, 3⟩, some [3, 2, 1], [(5, 1)]⟩ : CState).hookTable
        = some [3, 2, 1] ∧
      enumerationOfInsertions [1, 2, 3] [3, 2, 1]) ∧
    ((ul_free_engine_object ucCloseOK
        ⟨⟨some 5, 3⟩, some [3, 2, 1], [(5, 1)]⟩).2.2.hookDeletes = [3, 2, 1] ∧
      List.Perm
        (ul_free_engine_object ucCloseOK
          ⟨⟨some 5, 3⟩, some [3, 2, 1], [(5, 1)]⟩).2.2.hookDeletes [1, 2, 3] ∧
      (ul_free_engine_object ucCloseOK
        ⟨⟨some 5, 3⟩, some [3, 2, 1], [(5, 1)]⟩).1.hookTable = none ∧
      (ul_free_engine_object ucCloseOK
        ⟨⟨some 5, 3⟩, some [3, 2, 1], [(5, 1)]⟩).1.obj.hook_table_ref
        = LUA_NOREF) :=
  ⟨⟨rfl, rfl, by decide⟩,
   close_hook_teardown_amended ucCloseOK
     ⟨⟨some 5, 3⟩, some [3, 2, 1], [(5, 1)]⟩ 5 [1, 2, 3] [3, 2, 1]
     rfl rfl (by decide)⟩

/-- C3: `ul_toengine` is the single guard: on a stack slot holding the
wrapper left by a successful close it raises the closed-engine usage error,
and on a stack slot holding any OPEN wrapper it returns the non-null
handle. -/
theorem resolveHandle_guarded
    (ucClose : Nat → Int) (st : CState) (h : Nat)
    (stackA stackB : LuaStack) (idxA idxB : Nat)
    (objB : UCLuaEngine) (hB : Nat)
    (hopen : st.obj.engine = some h) (hok : ucClose h = UC_ERR_OK)
    (hatA : List.get? stackA (idxA - 1)
      = some (LuaValue.engineObj (ul_free_engine_object ucClose st).1.obj))
    (hatB : List.get? stackB (idxB - 1) = some (LuaValue.engineObj objB))
    (hopenB : objB.engine = some hB) :
    ul_toengine stackA idxA = Except.error UCError.closedEngine ∧
    ul_toengine stackB idxB = Except.ok hB := by
  have hfirst := ul_free_engine_object_open_ok ucClose st h hopen hok
  constructor
  · rw [hfirst] at hatA
    unfold ul_toengine
    simp only [hatA]
  · unfold ul_toengine
    simp only [hatB, hopenB]

/-- C3 witness: closing the concrete OPEN wrapper (handle 5) makes
`ul_toengine` raise the closed-engine error, while on the still-open wrapper
it returns handle 5. -/
theorem resolveHandle_guarded_witness :
    ((⟨⟨some 5, 3⟩, some [11], [(5, 1)]⟩ : CState).obj.engine = some 5 ∧
      ucCloseOK 5 = UC_ERR_OK ∧
      List.get? [LuaValue.engineObj
          (ul_free_engine_object ucCloseOK
            ⟨⟨some 5, 3⟩, some [11], [(5, 1)]⟩).1.obj] 0
        = some (LuaValue.engineObj
            (ul_free_engine_object ucCloseOK
              ⟨⟨some 5, 3⟩, some [11], [(5, 1)]⟩).1.obj) ∧
      List.get? [LuaValue.engineObj ⟨some 5, 3⟩] 0
        = some (LuaValue.engineObj ⟨some 5, 3⟩) ∧
      (⟨some 5, 3⟩ : UCLuaEngine).engine = some 5) ∧
    (ul_toengine [LuaValue.engineObj
        (ul_free_engine_object ucCloseOK
          ⟨⟨some 5, 3⟩, some [11], [(5, 1)]⟩).1.obj] 1
      = Except.error UCError.closedEngine ∧
     ul_toengine [LuaValue.engineObj ⟨some 5, 3⟩] 1 = Except.ok 5) :=
  ⟨⟨rfl, rfl, rfl, rfl, rfl⟩,
   resolveHandle_guarded ucCloseOK ⟨⟨some 5, 3⟩, some [11], [(5, 1)]⟩ 5
     [LuaValue.engineObj
       (ul_free_engine_object ucCloseOK
         ⟨⟨some 5, 3⟩, some [11], [(5, 1)]⟩).1.obj]
     [LuaValue.engineObj ⟨some 5, 3⟩] 1 1 ⟨some 5, 3⟩ 5
     rfl rfl rfl rfl rfl⟩

/-- C4: a successful close of an OPEN wrapper establishes the CLOSED-state
invariant: the handle is nulled, the hook table is gone and its reference is
the no-reference sentinel, and the former handle no longer resolves in the
engine-pointer map — `ul_get_engine_object` on it raises the not-found
error. -/
theorem close_establishes_closed_invariant
    (ucClose : Nat → Int) (st : CState) (h : Nat)
    (hopen : st.obj.engine = some h) (hok : ucClose h = UC_ERR_OK) :
    (ul_free_engine_object ucClose st).1.obj.engine = none ∧
    (ul_free_engine_object ucClose st).1.hookTable = none ∧
    (ul_free_engine_object ucClose st).1.obj.hook_table_ref = LUA_NOREF ∧
    luaGettable (ul_free_engine_object ucClose st).1.ptrMap h = none ∧
    (ul_get_engine_object (ul_free_engine_object ucClose st).1.ptrMap h).2
      = Except.error (UCError.noEngineObject h) := by
  have hfirst := ul_free_engine_object_open_ok ucClose st h hopen hok
  rw [hfirst]
  refine ⟨rfl, rfl, rfl, luaGettable_settableNil st.ptrMap h, ?_⟩
  simp [ul_get_engine_object, luaGettable_settableNil st.ptrMap h]

/-- C4 witness: closing the concrete wrapper with handle 5 nulls the handle,
empties the hook table, and makes registry lookup of 5 fail not-found. -/
theorem close_establishes_closed_invariant_witness :
    ((⟨⟨some 5, 3⟩, some [11], [(5, 1)]⟩ : CState).obj.engine = some 5 ∧
      ucCloseOK 5 = UC_ERR_OK) ∧
    ((ul_free_engine_object ucCloseOK
        ⟨⟨some 5, 3⟩, some [11], [(5, 1)]⟩).1.obj.engine = none ∧
      (ul_free_engine_object ucCloseOK
        ⟨⟨some 5, 3⟩, some [11], [(5, 1)]⟩).1.hookTable = none ∧
      (ul_free_engine_object ucCloseOK
        ⟨⟨some 5, 3⟩, some [11], [(5, 1)]⟩).1.obj.hook_table_ref = LUA_NOREF ∧
      luaGettable (ul_free_engine_object ucCloseOK
        ⟨⟨some 5, 3⟩, some [11], [(5, 1)]⟩).1.ptrMap 5 = none ∧
      (ul_get_engine_object (ul_free_engine_object ucCloseOK
          ⟨⟨some 5, 3⟩, some [11], [(5, 1)]⟩).1.ptrMap 5).2
        = Except.error (UCError.noEngineObject 5)) :=
  ⟨⟨rfl, rfl⟩,
   close_establishes_closed_invariant ucCloseOK
     ⟨⟨some 5, 3⟩, some [11], [(5, 1)]⟩ 5 rfl rfl⟩

/-- C5: registry round-trip — after `ul_create_engine_object` registers
wrapper `w` for handle `h`, `ul_get_engine_object` on `h` returns `w`; and
on a handle with no registered wrapper it raises the not-found error naming
that handle, returning the engine-pointer map unchanged. -/
theorem registry_roundtrip
    (ptrMap other : LuaTable) (h w : Nat) (freshRef : Int) (h2 : Nat)
    (habsent : luaGettable other h2 = none) :
    (ul_get_engine_object
        (ul_create_engine_object ptrMap h w freshRef).ptrMap h).2
      = Except.ok w ∧
    ul_get_engine_object other h2
      = (other, Except.error (UCError.noEngineObject h2)) := by
  constructor
  · simp [ul_create_engine_object, ul_get_engine_object,
      luaGettable_settablePut ptrMap h w]
  · simp [ul_get_engine_object, habsent]

/-- C5 witness: registering wrapper 9 for handle 7 makes lookup of 7 return
9, and lookup of the unregistered handle 8 fails not-found naming 8 with the
map unchanged. -/
theorem registry_roundtrip_witness :
    luaGettable ([] : LuaTable) 8 = none ∧
    ((ul_get_engine_object
        (ul_create_engine_object [] 7 9 4).ptrMap 7).2 = Except.ok 9 ∧
      ul_get_engine_object ([] : LuaTable) 8
        = (([] : LuaTable), Except.error (UCError.noEngineObject 8))) :=
  ⟨rfl, registry_roundtrip [] [] 7 9 4 8 rfl⟩

/-- A native close that always fails with status 1. -/
def ucCloseFail : Nat → Int := fun _ => 1

/-- C6: `ul_query` resolves the engine at argument 1 but then reads the
query type with `luaL_checkinteger(L, 1)` — stack index 1, the engine
userdata itself, not the caller-supplied query-type argument at index 2 — so
every well-formed call `engine:query(qtype)` fails with a bad-argument error
at index 1 instead of querying: `uc_query` is never reached and no integer
result is returned. -/
theorem ul_query_reads_wrong_index
    (ucQuery : Nat → Int → Int × Nat) (obj : UCLuaEngine) (h : Nat) (q : Int)
    (rest : LuaStack) (hopen : obj.engine = some h) :
    ul_query ucQuery (LuaValue.engineObj obj :: LuaValue.integer q :: rest)
      = Except.error (UCError.badArgument 1) := by
  simp [ul_query, ul_toengine, luaL_checkinteger, hopen, Bind.bind, Except.bind]

/-- C6 witness: the concrete call with the open engine (handle 5) and query
type 2 on the stack fails with the bad-argument error at index 1. -/
theorem ul_query_reads_wrong_index_witness :
    (⟨some 5, 3⟩ : UCLuaEngine).engine = some 5 ∧
    ul_query (fun _ _ => (UC_ERR_OK, 9))
        [LuaValue.engineObj ⟨some 5, 3⟩, LuaValue.integer 2]
      = Except.error (UCError.badArgument 1) :=
  ⟨rfl,
   ul_query_reads_wrong_index (fun _ _ => (UC_ERR_OK, 9)) ⟨some 5, 3⟩ 5 2 []
     rfl⟩

/-- C7: `ul_context_alloc` passes `&context` — the address of the C local
variable, not of the userdata block it just pushed — to `uc_context_alloc`,
so on success it returns a Snapshot Object whose block still holds nothing
(`none`), while the allocated native handle `(ucContextAlloc h).2` is left
only in the dead local (the second component below) and leaks; the returned
object does not wrap the allocated handle. -/
theorem ul_context_alloc_handle_not_stored
    (ucContextAlloc : Nat → Int × Nat) (obj : UCLuaEngine) (h freshId : Nat)
    (hopen : obj.engine = some h)
    (hok : (ucContextAlloc h).1 = UC_ERR_OK) :
    ul_context_alloc ucContextAlloc freshId [LuaValue.engineObj obj]
      = Except.ok
          ([LuaValue.engineObj obj, LuaValue.contextObj freshId none],
           (ucContextAlloc h).2) := by
  simp [ul_context_alloc, ul_toengine, hopen, hok, Bind.bind, Except.bind]

/-- C7 witness: with the open engine (handle 5) and a native allocator
handing out context handle 7, the returned Snapshot Object holds `none`
while 7 sits only in the dead local. -/
theorem ul_context_alloc_handle_not_stored_witness :
    ((⟨some 5, 3⟩ : UCLuaEngine).engine = some 5 ∧
      ((fun _ => (UC_ERR_OK, 7) : Nat → Int × Nat) 5).1 = UC_ERR_OK) ∧
    ul_context_alloc (fun _ => (UC_ERR_OK, 7)) 0
        [LuaValue.engineObj ⟨some 5, 3⟩]
      = Except.ok
          ([LuaValue.engineObj ⟨some 5, 3⟩, LuaValue.contextObj 0 none],
           ((fun _ => (UC_ERR_OK, 7) : Nat → Int × Nat) 5).2) :=
  ⟨⟨rfl, rfl⟩,
   ul_context_alloc_handle_not_stored (fun _ => (UC_ERR_OK, 7)) ⟨some 5, 3⟩
     5 0 rfl rfl⟩

/-- C8: snapshot identity of save — `ul_context_save` on an engine alone
returns the Snapshot Object freshly pushed by `ul_context_alloc` during the
call (identity `freshId`, the identity `lua_newuserdata` mints for the new
userdata), and on an engine with a supplied snapshot returns that very
snapshot (same identity, same value), in both cases after invoking the
native `uc_context_save` on the engine handle and that snapshot. -/
theorem context_save_identity
    (ucContextAlloc : Nat → Int × Nat) (ucContextSave : Nat → Nat → Int)
    (obj : UCLuaEngine) (h freshId sid : Nat) (scontents : Option Nat)
    (hopen : obj.engine = some h)
    (hokA : (ucContextAlloc h).1 = UC_ERR_OK)
    (hokS1 : ucContextSave h freshId = UC_ERR_OK)
    (hokS2 : ucContextSave h sid = UC_ERR_OK) :
    ul_context_save ucContextAlloc ucContextSave freshId
        [LuaValue.engineObj obj]
      = Except.ok (LuaValue.contextObj freshId none, [(h, freshId)]) ∧
    ul_context_save ucContextAlloc ucContextSave freshId
        [LuaValue.engineObj obj, LuaValue.contextObj sid scontents]
      = Except.ok (LuaValue.contextObj sid scontents, [(h, sid)]) := by
  constructor
  · simp [ul_context_save, ul_context_alloc, ul_toengine, ul_tocontext,
      hopen, hokA, hokS1, Bind.bind, Except.bind]
  · simp [ul_context_save, ul_toengine, ul_tocontext, hopen, hokS2,
      Bind.bind, Except.bind]

/-- C8 witness: saving with no snapshot returns the new snapshot with
identity 4; saving with the supplied snapshot (identity 9) returns exactly
that snapshot, the native save being called on it. -/
theorem context_save_identity_witness :
    ((⟨some 5, 3⟩ : UCLuaEngine).engine = some 5 ∧
      ((fun _ => (UC_ERR_OK, 7) : Nat → Int × Nat) 5).1 = UC_ERR_OK ∧
      ((fun _ _ => UC_ERR_OK : Nat → Nat → Int) 5 4) = UC_ERR_OK ∧
      ((fun _ _ => UC_ERR_OK : Nat → Nat → Int) 5 9) = UC_ERR_OK) ∧
    (ul_context_save (fun _ => (UC_ERR_OK, 7)) (fun _ _ => UC_ERR_OK) 4
        [LuaValue.engineObj ⟨some 5, 3⟩]
      = Except.ok (LuaValue.contextObj 4 none, [(5, 4)]) ∧
     ul_context_save (fun _ => (UC_ERR_OK, 7)) (fun _ _ => UC_ERR_OK) 4
        [LuaValue.engineObj ⟨some 5, 3⟩, LuaValue.contextObj 9 (some 7)]
      = Except.ok (LuaValue.contextObj 9 (some 7), [(5, 9)])) :=
  ⟨⟨rfl, rfl, rfl, rfl⟩,
   context_save_identity (fun _ => (UC_ERR_OK, 7)) (fun _ _ => UC_ERR_OK)
     ⟨some 5, 3⟩ 5 4 9 (some 7) rfl rfl rfl rfl⟩

/-- C9: a non-success `uc_close` status during close is surfaced through the
error-reporting path (`ul_crash_on_error`) carrying exactly that status —
never silently swallowed — and `uc_close` was attempted exactly once, with
no retry. -/
theorem close_failure_surfaced
    (ucClose : Nat → Int) (st : CState) (h : Nat)
    (hopen : st.obj.engine = some h) (hfail : ucClose h ≠ UC_ERR_OK) :
    (ul_free_engine_object ucClose st).2.1
      = Except.error (UCError.native (ucClose h)) ∧
    (ul_free_engine_object ucClose st).2.2.ucCloseCalls = [h] := by
  have hf := ul_free_engine_object_open_fail ucClose st h hopen hfail
  rw [hf]
  exact ⟨rfl, rfl⟩

/-- C9 witness: on the concrete open wrapper (handle 5) with a native close
failing with status 1, close raises the native error carrying 1 after a
single `uc_close` attempt. -/
theorem close_failure_surfaced_witness :
    ((⟨⟨some 5, 3⟩, some [11], [(5, 1)]⟩ : CState).obj.engine = some 5 ∧
      ucCloseFail 5 ≠ UC_ERR_OK) ∧
    ((ul_free_engine_object ucCloseFail
        ⟨⟨some 5, 3⟩, some [11], [(5, 1)]⟩).2.1
      = Except.error (UCError.native (ucCloseFail 5)) ∧
     (ul_free_engine_object ucCloseFail
        ⟨⟨some 5, 3⟩, some [11], [(5, 1)]⟩).2.2.ucCloseCalls = [5]) :=
  ⟨⟨rfl, by decide⟩,
   close_failure_surfaced ucCloseFail ⟨⟨some 5, 3⟩, some [11], [(5, 1)]⟩ 5
     rfl (by decide)⟩

/-- C10: close is not atomic on native-close failure — when `uc_close`
returns a non-success status the raise happens after the hook table was
drained and its reference set to `LUA_NOREF`, but before the wrapper is
removed from the engine-pointer map and before the handle is nulled: the
exit state differs from the entry state only in the hook table, the handle
is still the original non-null one, and the map entry is untouched. -/
theorem close_failure_partial_state
    (ucClose : Nat → Int) (st : CState) (h : Nat)
    (hopen : st.obj.engine = some h) (hfail : ucClose h ≠ UC_ERR_OK) :
    (ul_free_engine_object ucClose st).1
      = { st with hookTable := none,
                  obj := { st.obj with hook_table_ref := LUA_NOREF } } ∧
    (ul_free_engine_object ucClose st).2.1
      = Except.error (UCError.native (ucClose h)) ∧
    (ul_free_engine_object ucClose st).1.obj.engine = some h ∧
    (ul_free_engine_object ucClose st).1.ptrMap = st.ptrMap := by
  have hf := ul_free_engine_object_open_fail ucClose st h hopen hfail
  rw [hf]
  exact ⟨rfl, rfl, hopen, rfl⟩

/-- C10 witness: on the concrete open wrapper (handle 5, hook 11,
registered) with a failing native close, the exit state has no hook table,
`hook_table_ref = LUA_NOREF`, handle still 5, and the map entry for 5 still
present. -/
theorem close_failure_partial_state_witness :
    ((⟨⟨some 5, 3⟩, some [11], [(5, 1)]⟩ : CState).obj.engine = some 5 ∧
      ucCloseFail 5 ≠ UC_ERR_OK) ∧
    ((ul_free_engine_object ucCloseFail
        ⟨⟨some 5, 3⟩, some [11], [(5, 1)]⟩).1
      = { obj := { engine := some 5, hook_table_ref := LUA_NOREF },
          hookTable := none, ptrMap := [(5, 1)] } ∧
     (ul_free_engine_object ucCloseFail
        ⟨⟨some 5, 3⟩, some [11], [(5, 1)]⟩).2.1
      = Except.error (UCError.native (ucCloseFail 5)) ∧
     (ul_free_engine_object ucCloseFail
        ⟨⟨some 5, 3⟩, some [11], [(5, 1)]⟩).1.obj.engine = some 5 ∧
     (ul_free_engine_object ucCloseFail
        ⟨⟨some 5, 3⟩, some [11], [(5, 1)]⟩).1.ptrMap = [(5, 1)]) :=
  ⟨⟨rfl, by decide⟩,
   close_failure_partial_state ucCloseFail
     ⟨⟨some 5, 3⟩, some [11], [(5, 1)]⟩ 5 rfl (by decide)⟩
